import Mathlib

/-!
# Path inspector (`uploads/notes/1759946261241-443225216.cxx`)

A shallow embedding of the single-path `ls -l`-style inspector and the
properties of its specification.

* `mode_t` values are natural numbers; the `S_*` constants and `S_IS*` tests are
  those of `<sys/stat.h>` on Linux.
* `time_t` and `long long` are 64-bit two's-complement integers: arithmetic on
  them is integer arithmetic followed by `wrap64`.
* The operating system is a record `Env` of the library calls `main` makes.
  Every call goes through a wrapper that returns its result together with
  the extended call log, so the log and the values `main` uses cannot differ.
* `main` is a function from the environment and the argument vector to the
  way the run ends, the two output streams and the call log. A run ends with
  an exit code, or without one when `strftime` is handed the null pointer
  that `localtime` returned.
-/

namespace PathInspector

/-! ## File modes -/

def S_IFMT : Nat := 0o170000
def S_IFSOCK : Nat := 0o140000
def S_IFLNK : Nat := 0o120000
def S_IFREG : Nat := 0o100000
def S_IFBLK : Nat := 0o060000
def S_IFDIR : Nat := 0o040000
def S_IFCHR : Nat := 0o020000
def S_IFIFO : Nat := 0o010000

def S_ISUID : Nat := 0o4000
def S_ISGID : Nat := 0o2000
def S_ISVTX : Nat := 0o1000

def S_IRUSR : Nat := 0o400
def S_IWUSR : Nat := 0o200
def S_IXUSR : Nat := 0o100
def S_IRGRP : Nat := 0o040
def S_IWGRP : Nat := 0o020
def S_IXGRP : Nat := 0o010
def S_IROTH : Nat := 0o004
def S_IWOTH : Nat := 0o002
def S_IXOTH : Nat := 0o001

def S_ISREG (m : Nat) : Bool := (m &&& S_IFMT) == S_IFREG
def S_ISDIR (m : Nat) : Bool := (m &&& S_IFMT) == S_IFDIR
def S_ISLNK (m : Nat) : Bool := (m &&& S_IFMT) == S_IFLNK
def S_ISCHR (m : Nat) : Bool := (m &&& S_IFMT) == S_IFCHR
def S_ISBLK (m : Nat) : Bool := (m &&& S_IFMT) == S_IFBLK
def S_ISFIFO (m : Nat) : Bool := (m &&& S_IFMT) == S_IFIFO
def S_ISSOCK (m : Nat) : Bool := (m &&& S_IFMT) == S_IFSOCK

/-- The type character of a mode: `filetype_char` of the source, the seven
tests tried in the source's order. -/
def filetype_char (m : Nat) : Char :=
  if S_ISREG m then '-'
  else if S_ISDIR m then 'd'
  else if S_ISLNK m then 'l'
  else if S_ISCHR m then 'c'
  else if S_ISBLK m then 'b'
  else if S_ISFIFO m then 'p'
  else if S_ISSOCK m then 's'
  else '?'

/-- The nine permission characters of a mode: `perms_string` of the source.
A C condition `m & B` is `m &&& B ≠ 0`. -/
def perms_string (m : Nat) : String :=
  let p0 := if m &&& S_IRUSR ≠ 0 then 'r' else '-'
  let p1 := if m &&& S_IWUSR ≠ 0 then 'w' else '-'
  let p2 :=
    if m &&& S_ISUID ≠ 0 then (if m &&& S_IXUSR ≠ 0 then 's' else 'S')
    else (if m &&& S_IXUSR ≠ 0 then 'x' else '-')
  let p3 := if m &&& S_IRGRP ≠ 0 then 'r' else '-'
  let p4 := if m &&& S_IWGRP ≠ 0 then 'w' else '-'
  let p5 :=
    if m &&& S_ISGID ≠ 0 then (if m &&& S_IXGRP ≠ 0 then 's' else 'S')
    else (if m &&& S_IXGRP ≠ 0 then 'x' else '-')
  let p6 := if m &&& S_IROTH ≠ 0 then 'r' else '-'
  let p7 := if m &&& S_IWOTH ≠ 0 then 'w' else '-'
  let p8 :=
    if m &&& S_ISVTX ≠ 0 then (if m &&& S_IXOTH ≠ 0 then 't' else 'T')
    else (if m &&& S_IXOTH ≠ 0 then 'x' else '-')
  String.mk [p0, p1, p2, p3, p4, p5, p6, p7, p8]

/-! ### The permission table of the specification -/

/-- Bit `k` of a mode is set. -/
def bitSet (m k : Nat) : Bool := m.testBit k

/-- Position 1 of a triad. -/
def readChar (r : Bool) : Char := if r then 'r' else '-'

/-- Position 2 of a triad. -/
def writeChar (w : Bool) : Char := if w then 'w' else '-'

/-- Position 3 of a triad: `special` is the set-id or sticky bit of the triad,
`lower` the character shown when it is set with execute, `upper` without. -/
def execChar (special x : Bool) (lower upper : Char) : Char :=
  match special, x with
  | true, true => lower
  | true, false => upper
  | false, true => 'x'
  | false, false => '-'

/-- The reference string of the specification (step 4): bits 8..0 are the
owner, group and other read/write/execute bits, bits 11, 10, 9 are setuid,
setgid and sticky. -/
def permsSpec (m : Nat) : String :=
  String.mk
    [ readChar (bitSet m 8), writeChar (bitSet m 7),
      execChar (bitSet m 11) (bitSet m 6) 's' 'S',
      readChar (bitSet m 5), writeChar (bitSet m 4),
      execChar (bitSet m 10) (bitSet m 3) 's' 'S',
      readChar (bitSet m 2), writeChar (bitSet m 1),
      execChar (bitSet m 9) (bitSet m 0) 't' 'T' ]

/-- The characters a permission string may hold. -/
def permAlphabet : List Char := ['r', 'w', 'x', 's', 'S', 't', 'T', '-']

/-! ### Type classification, order-free -/

/-- The seven type tests with their characters, in the order of the source. -/
def typeTests : List ((Nat → Bool) × Char) :=
  [ (S_ISREG, '-'), (S_ISDIR, 'd'), (S_ISLNK, 'l'), (S_ISCHR, 'c'),
    (S_ISBLK, 'b'), (S_ISFIFO, 'p'), (S_ISSOCK, 's') ]

/-- The character of the first test of `tests` that holds for `m`, `'?'` when
none does. -/
def classify (tests : List ((Nat → Bool) × Char)) (m : Nat) : Char :=
  match tests with
  | [] => '?'
  | (t, c) :: rest => if t m then c else classify rest m

/-- The outcomes of the seven tests on a mode: one holds and six fail, or all
seven fail. -/
def testOutcomes (m : Nat) : List Bool :=
  [S_ISREG m, S_ISDIR m, S_ISLNK m, S_ISCHR m, S_ISBLK m, S_ISFIFO m, S_ISSOCK m]

/-- The 12 mode bits a permission string shows, read back from its characters. -/
def permsDecode (s : String) : Nat :=
  match s.data with
  | [c0, c1, c2, c3, c4, c5, c6, c7, c8] =>
    (if c0 = 'r' then 0o400 else 0) + (if c1 = 'w' then 0o200 else 0)
      + (if c2 = 's' ∨ c2 = 'x' then 0o100 else 0)
      + (if c2 = 's' ∨ c2 = 'S' then 0o4000 else 0)
      + (if c3 = 'r' then 0o040 else 0) + (if c4 = 'w' then 0o020 else 0)
      + (if c5 = 's' ∨ c5 = 'x' then 0o010 else 0)
      + (if c5 = 's' ∨ c5 = 'S' then 0o2000 else 0)
      + (if c6 = 'r' then 0o004 else 0) + (if c7 = 'w' then 0o002 else 0)
      + (if c8 = 't' ∨ c8 = 'x' then 0o001 else 0)
      + (if c8 = 't' ∨ c8 = 'T' then 0o1000 else 0)
  | _ => 0

/-! ## 64-bit integers -/

/-- The value a 64-bit two's-complement register holds for the integer `x`. -/
def wrap64 (x : Int) : Int := (x + 2 ^ 63) % 2 ^ 64 - 2 ^ 63

/-- The values of `time_t` and `long long`. -/
def isInt64 (x : Int) : Prop := -(2 : Int) ^ 63 ≤ x ∧ x < (2 : Int) ^ 63

instance (x : Int) : Decidable (isInt64 x) := by
  unfold isInt64
  exact inferInstance

/-- The C library's `llabs` on a 64-bit `long long`. -/
def llabs (x : Int) : Int := wrap64 (if x < 0 then -x else x)

/-- The constant `six_months` of `main`: 6 * 30 * 24 * 3600 seconds. -/
def six_months : Int := 15552000

/-! ## Output streams -/

/-- The part of a `std::ostream` the program uses: the text written so far,
the field width set by `setw`, whether `adjustfield` is `left`, and `badbit`.
A C string is a `String` whose characters are its `char`s. -/
structure OStream where
  buf : String
  width : Nat
  adjustLeft : Bool
  bad : Bool

/-- A stream at program start: nothing written, width 0, right adjustment. -/
def OStream.init : OStream := ⟨"", 0, false, false⟩

/-- A run of `n` fill characters. -/
def spaces (n : Nat) : String := String.mk (List.replicate n ' ')

/-- The manipulator `setw(n)`. -/
def OStream.setw (os : OStream) (n : Nat) : OStream := { os with width := n }

/-- The manipulator `left`. -/
def OStream.left (os : OStream) : OStream := { os with adjustLeft := true }

/-- The manipulator `right`. -/
def OStream.right (os : OStream) : OStream := { os with adjustLeft := false }

/-- Formatted insertion `os << s` of a character, a string or the decimal text
of a number: the text is padded with the fill character up to the field
width, on the side the adjustment says, and the width goes back to 0. A
stream with `badbit` set writes nothing. -/
def OStream.put (os : OStream) (s : String) : OStream :=
  if os.bad then os
  else
    let fill := spaces (os.width - s.length)
    { os with
      buf := os.buf ++ (if os.adjustLeft then s ++ fill else fill ++ s)
      width := 0 }

/-- Insertion `os << p` of a `const char *` that may be null: a null pointer
sets `badbit` and writes nothing. -/
def OStream.putCStr (os : OStream) (p : Option String) : OStream :=
  match p with
  | some s => os.put s
  | none => if os.bad then os else { os with bad := true }

/-! ## The operating system -/

/-- The fields of `struct stat` that `main` reads. -/
structure Stat where
  st_mode : Nat
  st_nlink : Nat
  st_uid : Nat
  st_gid : Nat
  st_size : Int
  st_mtime : Int

/-- The broken-down time `struct tm` of `<ctime>`. -/
structure Tm where
  tm_sec : Int
  tm_min : Int
  tm_hour : Int
  tm_mday : Int
  tm_mon : Int
  tm_year : Int
  tm_wday : Int
  tm_yday : Int
  tm_isdst : Int
  deriving DecidableEq, Repr

/-- A library call made by `main`. -/
inductive Call where
  | lstat (path : String)
  | getpwuid (uid : Nat)
  | getgrgid (gid : Nat)
  | time
  | localtime (t : Int)
  | strftime (fmt : String)
  | readlink (path : String) (bufsiz : Nat)
  deriving DecidableEq, Repr

/-- The library calls `main` makes, as functions of their arguments.
* `lstat path` is the metadata of `path`, or on failure the text
  `strerror(errno)`;
* `getpwuid uid` and `getgrgid gid` are the name of the entry found (`pw_name`,
  `gr_name`), or `none` for a null pointer;
* `time` is the value of `time(nullptr)`;
* `localtime t` is the broken-down time of `t`, or `none` for the null pointer
  returned when the year of `t` does not fit `tm_year`;
* `strftime fmt tm` is the text `strftime` leaves in `timebuf` for the format
  `fmt` and the broken-down time `tm`;
* `readlink path bufsiz` is the text `readlink` stores in the buffer, or `none`
  when it returns -1. -/
structure Env where
  lstat : String → Except String Stat
  getpwuid : Nat → Option String
  getgrgid : Nat → Option String
  time : Int
  localtime : Int → Option Tm
  strftime : String → Tm → String
  readlink : String → Nat → Option String

/-- What a run of `main` leaves behind: the exit code (`none` when the process
dies before `main` returns), the text written to standard output and to the
error stream, and the library calls in order. -/
structure Result where
  code : Option Nat
  out : String
  err : String
  calls : List Call

/-- The constant `PATH_MAX` of `<limits.h>` on Linux. -/
def PATH_MAX : Nat := 4096

/-- The line `perror(s)` writes to the error stream when `strerror(errno)` is
`reason`: the prefix `s: ` is left out for an empty `s`. -/
def perror (s reason : String) : String :=
  if s = "" then reason ++ "\n" else s ++ ": " ++ reason ++ "\n"

/-! ### Library calls with the call log -/

/-- The call `lstat(path, &st)`. -/
def call_lstat (env : Env) (path : String) (log : List Call) :
    Except String Stat × List Call :=
  (env.lstat path, log ++ [Call.lstat path])

/-- The call `getpwuid(uid)`. -/
def call_getpwuid (env : Env) (uid : Nat) (log : List Call) : Option String × List Call :=
  (env.getpwuid uid, log ++ [Call.getpwuid uid])

/-- The call `getgrgid(gid)`. -/
def call_getgrgid (env : Env) (gid : Nat) (log : List Call) : Option String × List Call :=
  (env.getgrgid gid, log ++ [Call.getgrgid gid])

/-- The call `time(nullptr)`. -/
def call_time (env : Env) (log : List Call) : Int × List Call :=
  (env.time, log ++ [Call.time])

/-- The call `localtime(&t)`; the result may be a null pointer. -/
def call_localtime (env : Env) (t : Int) (log : List Call) : Option Tm × List Call :=
  (env.localtime t, log ++ [Call.localtime t])

/-- The call `strftime(timebuf, sizeof(timebuf), fmt, tm)` with the pointer `tm`
as `localtime` returned it. With a null `tm` the call dereferences a null
pointer: there is no text, and the process does not get past the call. -/
def call_strftime (env : Env) (fmt : String) (tm : Option Tm) (log : List Call) :
    Option String × List Call :=
  (tm.map (env.strftime fmt), log ++ [Call.strftime fmt])

/-- The call `readlink(path, target, bufsiz)`. -/
def call_readlink (env : Env) (path : String) (bufsiz : Nat) (log : List Call) :
    Option String × List Call :=
  (env.readlink path bufsiz, log ++ [Call.readlink path bufsiz])

/-- The program: `main` of the source. `argv` is the argument vector, `argc` its
length; `argv[0]` is a null pointer when `argc` is 0. -/
def main (env : Env) (argv : List String) : Result :=
  if h : argv.length ≤ 1 then
    let cerr := ((OStream.init.put "Usage: ").putCStr argv.head?).put " file_or_directory\n"
    { code := some 2, out := "", err := cerr.buf, calls := [] }
  else
    let path := argv[1]
    let (r, log) := call_lstat env path []
    match r with
    | .error reason =>
      { code := some 1, out := "", err := perror path reason, calls := log }
    | .ok st =>
      let ftype := filetype_char st.st_mode
      let perms := perms_string st.st_mode
      let links := st.st_nlink
      let (pw, log) := call_getpwuid env st.st_uid log
      let owner := match pw with
        | some pw_name => pw_name
        | none => "(unknown)"
      let (gr, log) := call_getgrgid env st.st_gid log
      let group := match gr with
        | some gr_name => gr_name
        | none => "(unknown)"
      let size := st.st_size
      let (now, log) := call_time env log
      let (tm, log) := call_localtime env st.st_mtime log
      let (filled, log) :=
        if llabs (wrap64 (now - st.st_mtime)) > six_months then
          call_strftime env "%b %e  %Y" tm log
        else
          call_strftime env "%b %e %H:%M" tm log
      match filled with
      | none => { code := none, out := "", err := "", calls := log }
      | some timebuf =>
        let cout := OStream.init
        let cout := ((cout.put (String.singleton ftype)).put perms).put " "
        let cout := ((cout.setw 2).put (toString links)).put " "
        let cout := (((cout.setw 8).left).put owner).put " "
        let cout := (((cout.setw 8).left).put group).put " "
        let cout := (((cout.setw 8).right).put (toString size)).put " "
        let cout := ((cout.put timebuf).put " ").put path
        if S_ISLNK st.st_mode then
          let (len, log) := call_readlink env path PATH_MAX log
          match len with
          | some target =>
            let cout := (cout.put " -> ").put target
            let cout := cout.put "\n"
            { code := some 0, out := cout.buf, err := "", calls := log }
          | none =>
            let cout := cout.put "\n"
            { code := some 0, out := cout.buf, err := "", calls := log }
        else
          let cout := cout.put "\n"
          { code := some 0, out := cout.buf, err := "", calls := log }

/-! ### The output line of the specification -/

/-- Text `s` right-aligned in a field of minimum width `w`. -/
def rightAlign (w : Nat) (s : String) : String := spaces (w - s.length) ++ s

/-- Text `s` left-aligned in a field of minimum width `w`. -/
def leftAlign (w : Nat) (s : String) : String := s ++ spaces (w - s.length)

/-- The line of step 8 of the specification, from its fields; `suffix` is the
optional symlink suffix. -/
def outputLine (ftype : Char) (perms : String) (links : Nat) (owner group : String)
    (size : Int) (timestamp path suffix : String) : String :=
  String.singleton ftype ++ perms ++ " " ++ rightAlign 2 (toString links) ++ " "
    ++ leftAlign 8 owner ++ " " ++ leftAlign 8 group ++ " "
    ++ rightAlign 8 (toString size) ++ " " ++ timestamp ++ " " ++ path ++ suffix ++ "\n"

/-- The owner or group field for the result of an identity lookup. -/
def nameOrUnknown (found : Option String) : String :=
  match found with
  | some name => name
  | none => "(unknown)"

/-- The format of the branch `main` takes for the current time `now` and the
modification time `mtime`. -/
def selectedFormat (now mtime : Int) : String :=
  if llabs (wrap64 (now - mtime)) > six_months then "%b %e  %Y" else "%b %e %H:%M"

/-- The format the specification asks for: the old one if and only if the
absolute difference of the two times exceeds 15,552,000 seconds. -/
def formatSpec (now mtime : Int) : String :=
  if |now - mtime| > 15552000 then "%b %e  %Y" else "%b %e %H:%M"

/-- The symlink suffix: the arrow and the target when the entry is a symbolic
link whose target was read, nothing otherwise. -/
def symlinkSuffix (isLink : Bool) (target : Option String) : String :=
  match isLink, target with
  | true, some t => " -> " ++ t
  | _, _ => ""

/-- The calls of a run up to the `strftime` call. -/
def timeCalls (env : Env) (path : String) (st : Stat) : List Call :=
  [Call.lstat path, Call.getpwuid st.st_uid, Call.getgrgid st.st_gid, Call.time,
    Call.localtime st.st_mtime, Call.strftime (selectedFormat env.time st.st_mtime)]

/-- The calls of a run that gets to the end of `main`. -/
def successCalls (env : Env) (path : String) (st : Stat) : List Call :=
  timeCalls env path st
    ++ (if S_ISLNK st.st_mode then [Call.readlink path PATH_MAX] else [])

/-- The text of the line before the path: the fields up to the timestamp, each
followed by a space. -/
def lineHead (env : Env) (st : Stat) (tm : Tm) : String :=
  String.singleton (filetype_char st.st_mode) ++ perms_string st.st_mode ++ " "
    ++ rightAlign 2 (toString st.st_nlink) ++ " "
    ++ leftAlign 8 (nameOrUnknown (env.getpwuid st.st_uid)) ++ " "
    ++ leftAlign 8 (nameOrUnknown (env.getgrgid st.st_gid)) ++ " "
    ++ rightAlign 8 (toString st.st_size) ++ " "
    ++ env.strftime (selectedFormat env.time st.st_mtime) tm ++ " "

/-- The line of the specification for the metadata `st` of `path` and the
broken-down modification time `tm`, with the symlink suffix `suffix`. -/
def lineFor (env : Env) (path : String) (st : Stat) (tm : Tm) (suffix : String) : String :=
  outputLine (filetype_char st.st_mode) (perms_string st.st_mode) st.st_nlink
    (nameOrUnknown (env.getpwuid st.st_uid)) (nameOrUnknown (env.getgrgid st.st_gid))
    st.st_size (env.strftime (selectedFormat env.time st.st_mtime) tm) path suffix

/-- The line a run that gets to the end of `main` writes. -/
def successLine (env : Env) (path : String) (st : Stat) (tm : Tm) : String :=
  lineFor env path st tm (symlinkSuffix (S_ISLNK st.st_mode) (env.readlink path PATH_MAX))

/-! ### Sample inputs -/

/-- A symbolic link with one link, owned by uid 1000 and gid 50. -/
def sampleLink (size mtime : Int) : Stat :=
  { st_mode := 0o120777, st_nlink := 1, st_uid := 1000, st_gid := 50, st_size := size,
    st_mtime := mtime }

/-- A regular file of mode 0644 with one link, owned by uid 1000 and gid 50. -/
def sampleFile (size mtime : Int) : Stat :=
  { st_mode := 0o100644, st_nlink := 1, st_uid := 1000, st_gid := 50, st_size := size,
    st_mtime := mtime }

/-- The broken-down time of the sample clock: 1 January 2020, 00:00:00, a
Wednesday. -/
def sampleTm : Tm :=
  { tm_sec := 0, tm_min := 0, tm_hour := 0, tm_mday := 1, tm_mon := 0, tm_year := 120,
    tm_wday := 3, tm_yday := 0, tm_isdst := 0 }

/-- A `localtime` with the range of the one of glibc in UTC: the times whose
year fits the `int` field `tm_year`, from -67768040609740800 to
67768036191676799; outside it the result is a null pointer. -/
def sampleLocaltime (t : Int) : Option Tm :=
  if -67768040609740800 ≤ t ∧ t ≤ 67768036191676799 then some sampleTm else none

/-- A small environment for examples: every path has the metadata `st` (or
none, with the reason of a missing file), every identity lookup gives `owner`
and `group`, the clock reads `now`, `localtime` is `sampleLocaltime`, and every
link-target read gives `target`. -/
def sampleEnv (now : Int) (st : Option Stat) (owner group target : Option String) : Env where
  lstat := fun _ =>
    match st with
    | some s => .ok s
    | none => .error "No such file or directory"
  getpwuid := fun _ => owner
  getgrgid := fun _ => group
  time := now
  localtime := sampleLocaltime
  strftime := fun fmt _ => if fmt = "%b %e  %Y" then "Jan  1  2020" else "Jan  1 00:00"
  readlink := fun _ _ => target

/-- The usage message on the error stream: the text stops after `Usage: `
when `argv[0]` is a null pointer. -/
def usageText (argv0 : Option String) : String :=
  match argv0 with
  | some name => "Usage: " ++ name ++ " file_or_directory\n"
  | none => "Usage: "

set_option maxRecDepth 8192

/-! ## Proofs: modes -/

/-- A C test `m & 2^k` is the test of bit `k`. -/
theorem and_two_pow_ne_zero (m k : Nat) : (m &&& 2 ^ k ≠ 0) ↔ m.testBit k = true := by
  rw [Nat.and_two_pow]
  have hp : 0 < 2 ^ k := Nat.pos_pow_of_pos k (by decide)
  cases h : m.testBit k
  · simp
  · simp

/-- The condition `m & B` of the source for the mask `B = 2^k`, as a bit test. -/
theorem and_mask_ne_zero (m B k : Nat) (hB : B = 2 ^ k) :
    (m &&& B ≠ 0) ↔ bitSet m k = true := by
  subst hB
  exact and_two_pow_ne_zero m k

/-- The source's `perms_string` written with the twelve bit tests. -/
theorem perms_string_bits (m : Nat) :
    perms_string m = String.mk
      [ if bitSet m 8 then 'r' else '-', if bitSet m 7 then 'w' else '-',
        if bitSet m 11 then (if bitSet m 6 then 's' else 'S')
        else (if bitSet m 6 then 'x' else '-'),
        if bitSet m 5 then 'r' else '-', if bitSet m 4 then 'w' else '-',
        if bitSet m 10 then (if bitSet m 3 then 's' else 'S')
        else (if bitSet m 3 then 'x' else '-'),
        if bitSet m 2 then 'r' else '-', if bitSet m 1 then 'w' else '-',
        if bitSet m 9 then (if bitSet m 0 then 't' else 'T')
        else (if bitSet m 0 then 'x' else '-') ] := by
  unfold perms_string
  simp only [and_mask_ne_zero m S_IRUSR 8 rfl, and_mask_ne_zero m S_IWUSR 7 rfl,
    and_mask_ne_zero m S_IXUSR 6 rfl, and_mask_ne_zero m S_IRGRP 5 rfl,
    and_mask_ne_zero m S_IWGRP 4 rfl, and_mask_ne_zero m S_IXGRP 3 rfl,
    and_mask_ne_zero m S_IROTH 2 rfl, and_mask_ne_zero m S_IWOTH 1 rfl,
    and_mask_ne_zero m S_IXOTH 0 rfl, and_mask_ne_zero m S_ISUID 11 rfl,
    and_mask_ne_zero m S_ISGID 10 rfl, and_mask_ne_zero m S_ISVTX 9 rfl]

/-- C1. For every mode `m`, `perms_string m` is the 9-character reference
string of step 4 of the specification (read, write and execute positions of
the three triads, with the setuid, setgid and sticky overlays), and mode 0644
gives `rw-r--r--`. -/
theorem perms_string_eq_spec :
    (∀ m : Nat, perms_string m = permsSpec m) ∧ perms_string 0o644 = "rw-r--r--" := by
  refine ⟨fun m => ?_, by decide⟩
  rw [perms_string_bits]
  unfold permsSpec readChar writeChar execChar
  congr 1
  cases bitSet m 0 <;> cases bitSet m 3 <;> cases bitSet m 6 <;>
    cases bitSet m 9 <;> cases bitSet m 10 <;> cases bitSet m 11 <;> rfl

/-- C2. For every mode `m`, whatever its file-type, permission, set-id and
sticky bits, `perms_string m` has exactly 9 characters, each one of
`r w x s S t T -`. -/
theorem perms_string_length_alphabet (m : Nat) :
    (perms_string m).length = 9 ∧ ∀ c ∈ (perms_string m).data, c ∈ permAlphabet := by
  rw [perms_string_bits]
  refine ⟨rfl, ?_⟩
  intro c hc
  simp only [List.mem_cons, List.mem_nil_iff, or_false] at hc
  rcases hc with h | h | h | h | h | h | h | h | h <;> subst h <;> split_ifs <;> decide

/-! ### Type classification -/

theorem testOutcomes_cases (m : Nat) :
    testOutcomes m = [true, false, false, false, false, false, false] ∨
    testOutcomes m = [false, true, false, false, false, false, false] ∨
    testOutcomes m = [false, false, true, false, false, false, false] ∨
    testOutcomes m = [false, false, false, true, false, false, false] ∨
    testOutcomes m = [false, false, false, false, true, false, false] ∨
    testOutcomes m = [false, false, false, false, false, true, false] ∨
    testOutcomes m = [false, false, false, false, false, false, true] ∨
    testOutcomes m = [false, false, false, false, false, false, false] := by
  unfold testOutcomes S_ISREG S_ISDIR S_ISLNK S_ISCHR S_ISBLK S_ISFIFO S_ISSOCK
  generalize m &&& S_IFMT = v
  by_cases h1 : v = S_IFREG
  · subst h1; decide
  by_cases h2 : v = S_IFDIR
  · subst h2; decide
  by_cases h3 : v = S_IFLNK
  · subst h3; decide
  by_cases h4 : v = S_IFCHR
  · subst h4; decide
  by_cases h5 : v = S_IFBLK
  · subst h5; decide
  by_cases h6 : v = S_IFIFO
  · subst h6; decide
  by_cases h7 : v = S_IFSOCK
  · subst h7; decide
  simp [h1, h2, h3, h4, h5, h6, h7]

/-- When a test of the list holds and every test that holds carries the
character `c`, the first match is `c`. -/
theorem classify_eq_of_unique (tests : List ((Nat → Bool) × Char)) (m : Nat) (c : Char)
    (hex : ∃ p ∈ tests, p.1 m = true) (hall : ∀ p ∈ tests, p.1 m = true → p.2 = c) :
    classify tests m = c := by
  induction tests with
  | nil => simp at hex
  | cons q rest ih =>
    obtain ⟨t, d⟩ := q
    unfold classify
    by_cases ht : t m = true
    · simp only [ht, if_true]
      exact hall (t, d) (List.mem_cons_self _ _) ht
    · simp only [ht]
      apply ih
      · obtain ⟨p, hp, hpm⟩ := hex
        rcases List.mem_cons.mp hp with rfl | hp
        · exact absurd hpm ht
        · exact ⟨p, hp, hpm⟩
      · intro p hp
        exact hall p (List.mem_cons_of_mem _ hp)

/-- When no test of the list holds, the result is `'?'`. -/
theorem classify_eq_unknown (tests : List ((Nat → Bool) × Char)) (m : Nat)
    (hall : ∀ p ∈ tests, p.1 m = false) : classify tests m = '?' := by
  induction tests with
  | nil => rfl
  | cons q rest ih =>
    obtain ⟨t, d⟩ := q
    unfold classify
    have ht : t m = false := hall (t, d) (List.mem_cons_self _ _)
    simp only [ht]
    exact ih (fun p hp => hall p (List.mem_cons_of_mem _ hp))

/-- C3. Type classification is total and mutually exclusive: for every mode
at most one of the seven tests holds; trying the tests in any other order
gives the character `filetype_char` gives; the character is `-`, `d`, `l`,
`c`, `b`, `p`, `s` exactly when the regular, directory, symlink, character
device, block device, named pipe or socket test holds, and `?` exactly when
none of the seven holds. -/
theorem filetype_char_classification (m : Nat) :
    ((testOutcomes m).count true ≤ 1) ∧
    (∀ tests : List ((Nat → Bool) × Char), tests.Perm typeTests →
      classify tests m = filetype_char m) ∧
    (filetype_char m = '-' ↔ S_ISREG m = true) ∧
    (filetype_char m = 'd' ↔ S_ISDIR m = true) ∧
    (filetype_char m = 'l' ↔ S_ISLNK m = true) ∧
    (filetype_char m = 'c' ↔ S_ISCHR m = true) ∧
    (filetype_char m = 'b' ↔ S_ISBLK m = true) ∧
    (filetype_char m = 'p' ↔ S_ISFIFO m = true) ∧
    (filetype_char m = 's' ↔ S_ISSOCK m = true) ∧
    (filetype_char m = '?' ↔
      (S_ISREG m = false ∧ S_ISDIR m = false ∧ S_ISLNK m = false ∧ S_ISCHR m = false ∧
        S_ISBLK m = false ∧ S_ISFIFO m = false ∧ S_ISSOCK m = false)) := by
  have hperm : ∀ tests : List ((Nat → Bool) × Char), tests.Perm typeTests →
      ∀ P : (Nat → Bool) × Char → Prop, (∀ p ∈ tests, P p) ↔
        (P (S_ISREG, '-') ∧ P (S_ISDIR, 'd') ∧ P (S_ISLNK, 'l') ∧ P (S_ISCHR, 'c') ∧
          P (S_ISBLK, 'b') ∧ P (S_ISFIFO, 'p') ∧ P (S_ISSOCK, 's')) := by
    intro tests hp P
    constructor
    · intro h
      have hm : ∀ p ∈ typeTests, P p := fun p hp2 => h p (hp.mem_iff.mpr hp2)
      simpa [typeTests] using hm
    · intro h p hp2
      have hm : ∀ p ∈ typeTests, P p := by simpa [typeTests] using h
      exact hm p (hp.mem_iff.mp hp2)
  have hcases := testOutcomes_cases m
  unfold testOutcomes at hcases ⊢
  simp only [List.cons.injEq, and_true] at hcases
  rcases hcases with h | h | h | h | h | h | h | h <;>
    obtain ⟨h1, h2, h3, h4, h5, h6, h7⟩ := h <;>
    (refine ⟨by simp [h1, h2, h3, h4, h5, h6, h7], ?_, ?_⟩
     · intro tests hp
       simp only [filetype_char, h1, h2, h3, h4, h5, h6, h7, if_true, Bool.false_eq_true,
         if_false]
       first
       | (apply classify_eq_unknown
          rw [hperm tests hp]
          simp [h1, h2, h3, h4, h5, h6, h7])
       | (apply classify_eq_of_unique
          · have hne : ¬ ∀ p ∈ tests, ¬ (p.1 m = true) := by
              rw [hperm tests hp]
              simp [h1, h2, h3, h4, h5, h6, h7]
            push_neg at hne
            exact hne
          · rw [hperm tests hp]
            simp [filetype_char, h1, h2, h3, h4, h5, h6, h7])
     · simp [filetype_char, h1, h2, h3, h4, h5, h6, h7])

/-! ### The permission string and the 12 low mode bits -/

theorem bitSet_toNat (m k : Nat) : (bitSet m k).toNat = m / 2 ^ k % 2 := by
  unfold bitSet
  rw [Nat.testBit_to_div_mod]
  rcases Nat.mod_two_eq_zero_or_one (m / 2 ^ k) with h | h <;> simp [h]

theorem decode_read (b : Bool) (v : Nat) :
    (if (if b then 'r' else '-') = 'r' then v else 0) = b.toNat * v := by
  cases b <;> simp

theorem decode_write (b : Bool) (v : Nat) :
    (if (if b then 'w' else '-') = 'w' then v else 0) = b.toNat * v := by
  cases b <;> simp

theorem decode_exec_s (s x : Bool) (v : Nat) :
    (if (if s then (if x then 's' else 'S') else (if x then 'x' else '-')) = 's' ∨
        (if s then (if x then 's' else 'S') else (if x then 'x' else '-')) = 'x'
      then v else 0) = x.toNat * v := by
  cases s <;> cases x <;> simp

theorem decode_special_s (s x : Bool) (v : Nat) :
    (if (if s then (if x then 's' else 'S') else (if x then 'x' else '-')) = 's' ∨
        (if s then (if x then 's' else 'S') else (if x then 'x' else '-')) = 'S'
      then v else 0) = s.toNat * v := by
  cases s <;> cases x <;> simp

theorem decode_exec_t (s x : Bool) (v : Nat) :
    (if (if s then (if x then 't' else 'T') else (if x then 'x' else '-')) = 't' ∨
        (if s then (if x then 't' else 'T') else (if x then 'x' else '-')) = 'x'
      then v else 0) = x.toNat * v := by
  cases s <;> cases x <;> simp

theorem decode_special_t (s x : Bool) (v : Nat) :
    (if (if s then (if x then 't' else 'T') else (if x then 'x' else '-')) = 't' ∨
        (if s then (if x then 't' else 'T') else (if x then 'x' else '-')) = 'T'
      then v else 0) = s.toNat * v := by
  cases s <;> cases x <;> simp

/-- The 12 low bits of a number, one by one. -/
theorem low_twelve_bits (m : Nat) : m % 2 ^ 12 =
    m / 2 ^ 0 % 2 * 1 + m / 2 ^ 1 % 2 * 2 + m / 2 ^ 2 % 2 * 4 + m / 2 ^ 3 % 2 * 8
    + m / 2 ^ 4 % 2 * 16 + m / 2 ^ 5 % 2 * 32 + m / 2 ^ 6 % 2 * 64 + m / 2 ^ 7 % 2 * 128
    + m / 2 ^ 8 % 2 * 256 + m / 2 ^ 9 % 2 * 512 + m / 2 ^ 10 % 2 * 1024
    + m / 2 ^ 11 % 2 * 2048 := by
  have h : ∀ k, m % 2 ^ (k + 1) = m % 2 ^ k + 2 ^ k * (m / 2 ^ k % 2) :=
    fun k => Nat.mod_pow_succ
  rw [h 11, h 10, h 9, h 8, h 7, h 6, h 5, h 4, h 3, h 2, h 1, h 0]
  simp only [pow_zero, Nat.mod_one]
  ring

/-- The 12 low bits of a mode are read back from its permission string. -/
theorem permsDecode_perms_string (m : Nat) : permsDecode (perms_string m) = m &&& 0o7777 := by
  rw [perms_string_bits]
  have hmask : m &&& 0o7777 = m % 2 ^ 12 := Nat.and_pow_two_sub_one_eq_mod m 12
  rw [hmask, low_twelve_bits]
  unfold permsDecode
  dsimp only
  rw [decode_read, decode_write, decode_exec_s, decode_special_s, decode_read, decode_write,
    decode_exec_s, decode_special_s, decode_read, decode_write, decode_exec_t,
    decode_special_t]
  simp only [bitSet_toNat]
  ring

/-- The permission string does not look at the bits above the 12 low ones. -/
theorem perms_string_mask (m : Nat) : perms_string (m &&& 0o7777) = perms_string m := by
  have hb : ∀ k, k < 12 → bitSet (m &&& 0o7777) k = bitSet m k := by
    intro k hk
    unfold bitSet
    rw [Nat.testBit_and]
    have : Nat.testBit 0o7777 k = true := by
      interval_cases k <;> decide
    simp [this]
  rw [perms_string_bits, perms_string_bits]
  simp only [hb 0 (by decide), hb 1 (by decide), hb 2 (by decide), hb 3 (by decide),
    hb 4 (by decide), hb 5 (by decide), hb 6 (by decide), hb 7 (by decide), hb 8 (by decide),
    hb 9 (by decide), hb 10 (by decide), hb 11 (by decide)]

/-- C10. The permission string encodes exactly the 12 low mode bits: two modes
have the same string if and only if they agree on the bits of mask 07777; the
file-type bits (mask 0170000) do not change the string; and the 12 bits are
recovered from the string by `permsDecode`. -/
theorem perms_string_eq_iff_low_bits :
    (∀ m1 m2 : Nat, perms_string m1 = perms_string m2 ↔ m1 &&& 0o7777 = m2 &&& 0o7777) ∧
    (∀ m t : Nat, perms_string ((m &&& 0o7777) ||| (t &&& S_IFMT)) = perms_string m) ∧
    (∀ m : Nat, permsDecode (perms_string m) = m &&& 0o7777) := by
  refine ⟨fun m1 m2 => ⟨fun h => ?_, fun h => ?_⟩, fun m t => ?_, permsDecode_perms_string⟩
  · rw [← permsDecode_perms_string m1, ← permsDecode_perms_string m2, h]
  · rw [← perms_string_mask m1, ← perms_string_mask m2, h]
  · rw [← perms_string_mask, ← perms_string_mask m]
    congr 1
    apply Nat.eq_of_testBit_eq
    intro i
    simp only [Nat.testBit_and, Nat.testBit_or, S_IFMT]
    by_cases hi : i < 12
    · have h1 : Nat.testBit 0o170000 i = false := by interval_cases i <;> decide
      simp [h1]
    · have h2 : Nat.testBit 0o7777 i = false := by
        have : (0o7777 : Nat) < 2 ^ i :=
          lt_of_lt_of_le (by decide : (0o7777 : Nat) < 2 ^ 12)
            (Nat.pow_le_pow_right (by decide) (by omega))
        exact Nat.testBit_lt_two_pow this
      simp [h2]

/-! ## Proofs: the program -/

theorem spaces_zero : spaces 0 = "" := rfl

/-- Without a path argument `main` returns 2, calls nothing and writes nothing
to standard output. -/
theorem main_usage (env : Env) (argv : List String) (h : argv.length ≤ 1) :
    (main env argv).code = some 2 ∧ (main env argv).out = "" ∧
      (main env argv).calls = [] := by
  unfold main
  simp [h]

/-- The usage message when the program name is there. -/
theorem main_usage_err (env : Env) (argv0 : String) :
    (main env [argv0]).err = "Usage: " ++ argv0 ++ " file_or_directory\n" := by
  simp [main, OStream.put, OStream.putCStr, OStream.init, spaces]

/-- With a path argument whose metadata lookup fails `main` returns 1 after
that one call, with the `perror` line on the error stream. -/
theorem main_lstat_error (env : Env) (argv0 path : String) (rest : List String)
    (reason : String) (h : env.lstat path = .error reason) :
    main env (argv0 :: path :: rest)
      = { code := some 1, out := "", err := perror path reason,
          calls := [Call.lstat path] } := by
  unfold main
  simp [h, call_lstat]

/-- With a modification time that `localtime` converts, `main` returns 0 and
writes the line to standard output. -/
theorem main_success (env : Env) (argv0 path : String) (rest : List String)
    (st : Stat) (tm : Tm) (h : env.lstat path = .ok st)
    (ht : env.localtime st.st_mtime = some tm) :
    main env (argv0 :: path :: rest)
      = { code := some 0, out := successLine env path st tm, err := "",
          calls := successCalls env path st } := by
  have hlen : ¬ (argv0 :: path :: rest).length ≤ 1 := by simp
  unfold main successLine lineFor successCalls timeCalls outputLine selectedFormat
  rw [dif_neg hlen]
  simp only [List.getElem_cons_succ, List.getElem_cons_zero, h, call_lstat, call_getpwuid,
    call_getgrgid, call_time, call_localtime, call_strftime, call_readlink, ht]
  cases hl : S_ISLNK st.st_mode <;> cases hr : env.readlink path PATH_MAX <;>
    cases hp : env.getpwuid st.st_uid <;> cases hg : env.getgrgid st.st_gid <;>
    by_cases ho : llabs (wrap64 (env.time - st.st_mtime)) > six_months <;>
    simp [ho, OStream.put, OStream.setw, OStream.left, OStream.right, OStream.init,
      symlinkSuffix, nameOrUnknown, rightAlign, leftAlign, String.append_assoc, spaces_zero]

/-- With a modification time for which `localtime` returns a null pointer,
`main` hands it to `strftime` and does not return: no exit code, nothing on
either stream, and no link-target read. -/
theorem main_null_tm (env : Env) (argv0 path : String) (rest : List String)
    (st : Stat) (h : env.lstat path = .ok st) (ht : env.localtime st.st_mtime = none) :
    main env (argv0 :: path :: rest)
      = { code := none, out := "", err := "", calls := timeCalls env path st } := by
  have hlen : ¬ (argv0 :: path :: rest).length ≤ 1 := by simp
  unfold main timeCalls selectedFormat
  rw [dif_neg hlen]
  simp only [List.getElem_cons_succ, List.getElem_cons_zero, h, call_lstat, call_getpwuid,
    call_getgrgid, call_time, call_localtime, call_strftime, ht]
  by_cases ho : llabs (wrap64 (env.time - st.st_mtime)) > six_months <;> simp [ho]

/-! ### The timestamp format -/

/-- A 64-bit value is its own wrap. -/
theorem wrap64_of_isInt64 (x : Int) (h : isInt64 x) : wrap64 x = x := by
  unfold isInt64 at h
  unfold wrap64
  omega

/-- Without overflow `llabs` of the wrapped difference is the absolute value. -/
theorem llabs_wrap64 (d : Int) (h : |d| < 2 ^ 63) : llabs (wrap64 d) = |d| := by
  have hd : isInt64 d := by
    unfold isInt64
    rcases abs_cases d with ⟨h1, h2⟩ | ⟨h1, h2⟩ <;> omega
  rw [wrap64_of_isInt64 d hd]
  unfold llabs
  rcases abs_cases d with ⟨h1, h2⟩ | ⟨h1, h2⟩
  · rw [if_neg (by omega), h1]
    exact wrap64_of_isInt64 d hd
  · rw [if_pos h2, h1]
    apply wrap64_of_isInt64
    unfold isInt64
    omega

/-- The format `main` selects when the subtraction does not overflow is the
one the specification asks for. -/
theorem selectedFormat_of_no_overflow (now mtime : Int) (h : |now - mtime| < 2 ^ 63) :
    selectedFormat now mtime = formatSpec now mtime := by
  unfold selectedFormat formatSpec
  rw [llabs_wrap64 _ h]
  rfl

/-- Inside the range of the 64-bit subtraction, and for a modification time
that `localtime` converts, the timestamp `main` prints and the format it hands
to `strftime` are those of the specification: the old format if and only if
the absolute difference exceeds 15,552,000 seconds. -/
theorem main_timestamp_in_range (env : Env) (argv0 path : String) (rest : List String)
    (st : Stat) (tm : Tm) (h : env.lstat path = .ok st)
    (ht : env.localtime st.st_mtime = some tm) (hd : |env.time - st.st_mtime| < 2 ^ 63) :
    (main env (argv0 :: path :: rest)).out
      = outputLine (filetype_char st.st_mode) (perms_string st.st_mode) st.st_nlink
          (nameOrUnknown (env.getpwuid st.st_uid)) (nameOrUnknown (env.getgrgid st.st_gid))
          st.st_size (env.strftime (formatSpec env.time st.st_mtime) tm) path
          (symlinkSuffix (S_ISLNK st.st_mode) (env.readlink path PATH_MAX)) ∧
    Call.strftime (formatSpec env.time st.st_mtime) ∈ (main env (argv0 :: path :: rest)).calls := by
  rw [main_success env argv0 path rest st tm h ht]
  constructor
  · simp only [successLine, lineFor, selectedFormat_of_no_overflow _ _ hd]
  · simp [successCalls, timeCalls, selectedFormat_of_no_overflow _ _ hd]

/-- C4, the code at a failing input. The clock reads 1,800,000,000 and the
modification time is 2^63 seconds before it, both 64-bit values. The absolute
difference exceeds 15,552,000 seconds, so the specification asks for the old
format; the 64-bit subtraction wraps to -2^63, `llabs` leaves it negative, and
`main` hands the recent format to `strftime`. For this modification time
`localtime` has returned a null pointer, so the run ends in that call, with
nothing written. -/
theorem main_timestamp_format_overflow :
    isInt64 1800000000 ∧ isInt64 (1800000000 - 2 ^ 63) ∧
    |(1800000000 : Int) - (1800000000 - 2 ^ 63)| > 15552000 ∧
    formatSpec 1800000000 (1800000000 - 2 ^ 63) = "%b %e  %Y" ∧
    selectedFormat 1800000000 (1800000000 - 2 ^ 63) = "%b %e %H:%M" ∧
    main (sampleEnv 1800000000 (some (sampleFile 0 (1800000000 - 2 ^ 63))) (some "alice")
        (some "staff") none) ["prog", "f"]
      = { code := none, out := "", err := "",
          calls := [Call.lstat "f", Call.getpwuid 1000, Call.getgrgid 50, Call.time,
            Call.localtime (1800000000 - 2 ^ 63), Call.strftime "%b %e %H:%M"] } := by
  have hsel : selectedFormat 1800000000 (1800000000 - 2 ^ 63) = "%b %e %H:%M" := by
    simp [selectedFormat, llabs, wrap64, six_months]
  refine ⟨by decide, by decide, by norm_num, by simp [formatSpec], hsel, ?_⟩
  rw [main_null_tm _ "prog" "f" [] (sampleFile 0 (1800000000 - 2 ^ 63)) rfl (by decide)]
  simp only [timeCalls, sampleEnv, hsel]
  rfl

/-! ### Exit codes and the fatal paths -/

/-- The shape of an argument vector with a path argument. -/
theorem argv_with_path (argv : List String) (path : String) (h : argv[1]? = some path) :
    ∃ argv0 rest, argv = argv0 :: path :: rest := by
  match argv, h with
  | [], h => simp at h
  | [_], h => simp at h
  | a :: p :: r, h =>
    simp at h
    exact ⟨a, r, by rw [h]⟩

/-- The four ways a run ends: exit code 2 exactly without a path argument, 1
exactly when `lstat` fails, 0 exactly when `lstat` succeeds and `localtime`
converts the modification time, and no exit code exactly when `lstat` succeeds
and `localtime` returns a null pointer. -/
theorem main_code_cases (env : Env) (argv : List String) :
    ((main env argv).code = some 2 ↔ argv.length ≤ 1) ∧
    ((main env argv).code = some 1 ↔
      ∃ path reason, argv[1]? = some path ∧ env.lstat path = .error reason) ∧
    ((main env argv).code = some 0 ↔
      ∃ path st tm, argv[1]? = some path ∧ env.lstat path = .ok st ∧
        env.localtime st.st_mtime = some tm) ∧
    ((main env argv).code = none ↔
      ∃ path st, argv[1]? = some path ∧ env.lstat path = .ok st ∧
        env.localtime st.st_mtime = none) := by
  match argv with
  | [] =>
    have h := main_usage env [] (by simp)
    exact ⟨by simp [h.1], by simp [h.1], by simp [h.1], by simp [h.1]⟩
  | [a] =>
    have h := main_usage env [a] (by simp)
    exact ⟨by simp [h.1], by simp [h.1], by simp [h.1], by simp [h.1]⟩
  | a :: p :: r =>
    cases hl : env.lstat p with
    | error reason =>
      have h := main_lstat_error env a p r reason hl
      exact ⟨by simp [h], by simp [h, hl], by simp [h, hl], by simp [h, hl]⟩
    | ok st =>
      cases ht : env.localtime st.st_mtime with
      | none =>
        have h := main_null_tm env a p r st hl ht
        exact ⟨by simp [h], by simp [h, hl], by simp [h, hl, ht], by simp [h, hl, ht]⟩
      | some tm =>
        have h := main_success env a p r st tm hl ht
        exact ⟨by simp [h], by simp [h, hl], by simp [h, hl, ht], by simp [h, hl, ht]⟩

/-- C5, the code at a failing input. A path argument is supplied and `lstat`
succeeds, with a modification time of 10^17 seconds, beyond the range of
`localtime`. `main` does not return 0: it hands the null pointer to `strftime`
and the run ends there, without an exit code and with nothing written. -/
theorem main_exit_code_null_tm :
    (sampleEnv 1800000000 (some (sampleFile 0 (10 ^ 17))) (some "alice") (some "staff")
        none).lstat "f" = .ok (sampleFile 0 (10 ^ 17)) ∧
    (sampleEnv 1800000000 (some (sampleFile 0 (10 ^ 17))) (some "alice") (some "staff")
        none).localtime (10 ^ 17) = none ∧
    main (sampleEnv 1800000000 (some (sampleFile 0 (10 ^ 17))) (some "alice") (some "staff")
        none) ["prog", "f"]
      = { code := none, out := "", err := "",
          calls := [Call.lstat "f", Call.getpwuid 1000, Call.getgrgid 50, Call.time,
            Call.localtime (10 ^ 17), Call.strftime "%b %e  %Y"] } := by
  refine ⟨rfl, by decide, ?_⟩
  rw [main_null_tm _ "prog" "f" [] (sampleFile 0 (10 ^ 17)) rfl (by decide)]
  have hsel : selectedFormat 1800000000 (10 ^ 17) = "%b %e  %Y" := by
    simp [selectedFormat, llabs, wrap64, six_months]
  simp only [timeCalls, sampleEnv, hsel]
  rfl

/-- C6. On a usage error (no path argument) `main` returns 2 without any
library call (no metadata lookup, identity lookup or link-target read), writes
nothing to standard output and the usage message to the error stream; when the
metadata lookup fails it returns 1 after that single call, writes nothing to
standard output and the `perror` line to the error stream. -/
theorem main_fatal_paths (env : Env) (argv : List String) :
    (argv.length ≤ 1 →
      (main env argv).code = some 2 ∧ (main env argv).calls = [] ∧
        (main env argv).out = "" ∧ (main env argv).err = usageText argv.head?) ∧
    (∀ path reason, argv[1]? = some path → env.lstat path = .error reason →
      (main env argv).code = some 1 ∧ (main env argv).calls = [Call.lstat path] ∧
        (main env argv).out = "" ∧ (main env argv).err = perror path reason) := by
  constructor
  · intro h
    obtain ⟨h1, h2, h3⟩ := main_usage env argv h
    refine ⟨h1, h3, h2, ?_⟩
    match argv, h with
    | [], _ => simp [main, OStream.put, OStream.putCStr, OStream.init, spaces, usageText]
    | [a], _ => simp [main_usage_err, usageText]
    | _ :: _ :: _, h => simp at h
  · intro path reason hp hl
    obtain ⟨argv0, rest, rfl⟩ := argv_with_path argv path hp
    rw [main_lstat_error env argv0 path rest reason hl]
    exact ⟨rfl, rfl, rfl, rfl⟩

/-- Witness of C6: with no argument beyond the program name, and with a path
whose metadata lookup fails. -/
theorem main_fatal_paths_witness :
    ((main (sampleEnv 0 none none none none) ["prog"]).code = some 2 ∧
      (main (sampleEnv 0 none none none none) ["prog"]).calls = [] ∧
      (main (sampleEnv 0 none none none none) ["prog"]).out = "" ∧
      (main (sampleEnv 0 none none none none) ["prog"]).err
        = "Usage: prog file_or_directory\n") ∧
    ((main (sampleEnv 0 none none none none) ["prog", "missing"]).code = some 1 ∧
      (main (sampleEnv 0 none none none none) ["prog", "missing"]).calls
        = [Call.lstat "missing"] ∧
      (main (sampleEnv 0 none none none none) ["prog", "missing"]).out = "" ∧
      (main (sampleEnv 0 none none none none) ["prog", "missing"]).err
        = "missing: No such file or directory\n") :=
  ⟨(main_fatal_paths (sampleEnv 0 none none none none) ["prog"]).1 (by decide),
   (main_fatal_paths (sampleEnv 0 none none none none) ["prog", "missing"]).2
      "missing" "No such file or directory" rfl rfl⟩

/-! ### The output line -/

/-- For a modification time that `localtime` converts, `main` exits with code 0
and prints the line whose owner field is the name the owner lookup returns
when it finds an entry and `(unknown)` when it finds none, and likewise,
independently, for the group field. -/
theorem main_identity_fields_of_tm (env : Env) (argv0 path : String) (rest : List String)
    (st : Stat) (tm : Tm) (h : env.lstat path = .ok st)
    (ht : env.localtime st.st_mtime = some tm) :
    (main env (argv0 :: path :: rest)).code = some 0 ∧
    ∃ owner group : String,
      (main env (argv0 :: path :: rest)).out
        = outputLine (filetype_char st.st_mode) (perms_string st.st_mode) st.st_nlink
            owner group st.st_size
            (env.strftime (selectedFormat env.time st.st_mtime) tm) path
            (symlinkSuffix (S_ISLNK st.st_mode) (env.readlink path PATH_MAX)) ∧
      (∀ name, env.getpwuid st.st_uid = some name → owner = name) ∧
      (env.getpwuid st.st_uid = none → owner = "(unknown)") ∧
      (∀ name, env.getgrgid st.st_gid = some name → group = name) ∧
      (env.getgrgid st.st_gid = none → group = "(unknown)") := by
  rw [main_success env argv0 path rest st tm h ht]
  refine ⟨rfl, nameOrUnknown (env.getpwuid st.st_uid), nameOrUnknown (env.getgrgid st.st_gid),
    rfl, ?_, ?_, ?_, ?_⟩
  · intro name hn
    rw [hn]
    rfl
  · intro hn
    rw [hn]
    rfl
  · intro name hn
    rw [hn]
    rfl
  · intro hn
    rw [hn]
    rfl

/-- C7, the code at a failing input. The metadata lookup succeeds with a
modification time of 10^17 seconds, beyond the range of `localtime`. In each
of the four combinations of a found and a missing owner and group the run
ends in `strftime` on the null pointer: no line is printed, so there is no
owner or group field, and there is no exit code. -/
theorem main_identity_fields_null_tm :
    (sampleEnv 1800000000 (some (sampleFile 7 (10 ^ 17))) none none none).lstat "f"
      = .ok (sampleFile 7 (10 ^ 17)) ∧
    ((main (sampleEnv 1800000000 (some (sampleFile 7 (10 ^ 17))) (some "alice")
        (some "staff") none) ["prog", "f"]).code = none ∧
      (main (sampleEnv 1800000000 (some (sampleFile 7 (10 ^ 17))) (some "alice")
        (some "staff") none) ["prog", "f"]).out = "") ∧
    ((main (sampleEnv 1800000000 (some (sampleFile 7 (10 ^ 17))) none
        (some "staff") none) ["prog", "f"]).code = none ∧
      (main (sampleEnv 1800000000 (some (sampleFile 7 (10 ^ 17))) none
        (some "staff") none) ["prog", "f"]).out = "") ∧
    ((main (sampleEnv 1800000000 (some (sampleFile 7 (10 ^ 17))) (some "alice")
        none none) ["prog", "f"]).code = none ∧
      (main (sampleEnv 1800000000 (some (sampleFile 7 (10 ^ 17))) (some "alice")
        none none) ["prog", "f"]).out = "") ∧
    ((main (sampleEnv 1800000000 (some (sampleFile 7 (10 ^ 17))) none
        none none) ["prog", "f"]).code = none ∧
      (main (sampleEnv 1800000000 (some (sampleFile 7 (10 ^ 17))) none
        none none) ["prog", "f"]).out = "") := by
  refine ⟨rfl, ?_, ?_, ?_, ?_⟩ <;>
    rw [main_null_tm _ "prog" "f" [] (sampleFile 7 (10 ^ 17)) rfl (by decide)] <;>
    exact ⟨rfl, rfl⟩

/-- The same lines for the four combinations when the modification time is one
`localtime` converts. -/
theorem main_identity_fields_samples :
    (main (sampleEnv 1800000000 (some (sampleFile 7 1800000000)) (some "alice")
        (some "staff") none) ["prog", "f"]).out
        = "-rw-r--r--  1 alice    staff           7 Jan  1 00:00 f\n" ∧
    (main (sampleEnv 1800000000 (some (sampleFile 7 1800000000)) none
        (some "staff") none) ["prog", "f"]).out
        = "-rw-r--r--  1 (unknown) staff           7 Jan  1 00:00 f\n" ∧
    (main (sampleEnv 1800000000 (some (sampleFile 7 1800000000)) (some "alice")
        none none) ["prog", "f"]).out
        = "-rw-r--r--  1 alice    (unknown)        7 Jan  1 00:00 f\n" ∧
    (main (sampleEnv 1800000000 (some (sampleFile 7 1800000000)) none
        none none) ["prog", "f"]).out
        = "-rw-r--r--  1 (unknown) (unknown)        7 Jan  1 00:00 f\n" := by
  refine ⟨by decide, by decide, by decide, by decide⟩

theorem lineFor_eq (env : Env) (path : String) (st : Stat) (tm : Tm) (suffix : String) :
    lineFor env path st tm suffix = lineHead env st tm ++ path ++ suffix ++ "\n" := rfl

theorem filetype_char_of_symlink (m : Nat) (h : S_ISLNK m = true) : filetype_char m = 'l' := by
  have hc := testOutcomes_cases m
  unfold testOutcomes at hc
  simp only [List.cons.injEq, and_true, h] at hc
  simp at hc
  obtain ⟨h1, h2, -⟩ := hc
  simp [filetype_char, h1, h2, h]

theorem lineFor_head (env : Env) (path : String) (st : Stat) (tm : Tm) (suffix : String) :
    (lineFor env path st tm suffix).data.head? = some (filetype_char st.st_mode) := by
  simp [lineFor, outputLine, String.singleton]

/-- For a modification time that `localtime` converts, `main` exits with code 0
and the link-target read is attempted exactly for a symbolic link. For a
symbolic link whose target read returns `t` the line starts with `l` and ends
with the path, ` -> `, `t` and a newline; for a symbolic link whose target
read fails, and for every other entry, the line ends with the path and a
newline, with no suffix. -/
theorem main_symlink_suffix_of_tm (env : Env) (argv0 path : String) (rest : List String)
    (st : Stat) (tm : Tm) (h : env.lstat path = .ok st)
    (ht : env.localtime st.st_mtime = some tm) :
    (main env (argv0 :: path :: rest)).code = some 0 ∧
    (Call.readlink path PATH_MAX ∈ (main env (argv0 :: path :: rest)).calls ↔
      S_ISLNK st.st_mode = true) ∧
    (∀ t, S_ISLNK st.st_mode = true → env.readlink path PATH_MAX = some t →
      (main env (argv0 :: path :: rest)).out.data.head? = some 'l' ∧
      (main env (argv0 :: path :: rest)).out
        = lineHead env st tm ++ path ++ " -> " ++ t ++ "\n") ∧
    (S_ISLNK st.st_mode = true → env.readlink path PATH_MAX = none →
      (main env (argv0 :: path :: rest)).out = lineHead env st tm ++ path ++ "\n") ∧
    (S_ISLNK st.st_mode = false →
      (main env (argv0 :: path :: rest)).out = lineHead env st tm ++ path ++ "\n" ∧
      ∀ p n, Call.readlink p n ∉ (main env (argv0 :: path :: rest)).calls) := by
  rw [main_success env argv0 path rest st tm h ht]
  refine ⟨rfl, ?_, ?_, ?_, ?_⟩
  · cases hl : S_ISLNK st.st_mode <;> simp [successCalls, timeCalls, hl]
  · intro t hl hr
    simp only [successLine, hl, hr, symlinkSuffix]
    refine ⟨?_, ?_⟩
    · rw [lineFor_head, filetype_char_of_symlink _ hl]
    · rw [lineFor_eq]
      simp [String.append_assoc]
  · intro hl hr
    simp only [successLine, hl, hr, symlinkSuffix]
    rw [lineFor_eq]
    simp [String.append_assoc]
  · intro hl
    simp only [successLine, hl, symlinkSuffix]
    refine ⟨?_, ?_⟩
    · rw [lineFor_eq]
      simp [String.append_assoc]
    · intro p n
      simp [successCalls, timeCalls, hl]

/-- C8, the code at a failing input. The entry is a symbolic link to
`/tmp/target` whose metadata lookup succeeds with a modification time of 10^17
seconds, beyond the range of `localtime`. The run ends in `strftime` on the
null pointer: there is no exit code, no line and no suffix, and the
link-target read is never attempted. The same holds when the target read
would fail, and for a regular file. -/
theorem main_symlink_suffix_null_tm :
    S_ISLNK (sampleLink 11 (10 ^ 17)).st_mode = true ∧
    (sampleEnv 1800000000 (some (sampleLink 11 (10 ^ 17))) (some "alice") (some "staff")
        (some "/tmp/target")).lstat "ln" = .ok (sampleLink 11 (10 ^ 17)) ∧
    main (sampleEnv 1800000000 (some (sampleLink 11 (10 ^ 17))) (some "alice") (some "staff")
        (some "/tmp/target")) ["prog", "ln"]
      = { code := none, out := "", err := "",
          calls := [Call.lstat "ln", Call.getpwuid 1000, Call.getgrgid 50, Call.time,
            Call.localtime (10 ^ 17), Call.strftime "%b %e  %Y"] } ∧
    (main (sampleEnv 1800000000 (some (sampleLink 11 (10 ^ 17))) (some "alice") (some "staff")
        none) ["prog", "ln"]).code = none ∧
    (main (sampleEnv 1800000000 (some (sampleFile 11 (10 ^ 17))) (some "alice") (some "staff")
        (some "/tmp/target")) ["prog", "f"]).code = none := by
  have hsel : selectedFormat 1800000000 (10 ^ 17) = "%b %e  %Y" := by
    simp [selectedFormat, llabs, wrap64, six_months]
  refine ⟨by decide, rfl, ?_, ?_, ?_⟩
  · rw [main_null_tm _ "prog" "ln" [] (sampleLink 11 (10 ^ 17)) rfl (by decide)]
    simp only [timeCalls, sampleEnv, hsel]
    rfl
  · rw [main_null_tm _ "prog" "ln" [] (sampleLink 11 (10 ^ 17)) rfl (by decide)]
  · rw [main_null_tm _ "prog" "f" [] (sampleFile 11 (10 ^ 17)) rfl (by decide)]

/-- The lines for a symbolic link pointing to `/tmp/target`, the same link when
the target read fails, and a regular file, when the modification time is one
`localtime` converts. -/
theorem main_symlink_suffix_samples :
    (main (sampleEnv 1800000000 (some (sampleLink 11 1800000000)) (some "alice")
        (some "staff") (some "/tmp/target")) ["prog", "ln"]).out
        = "lrwxrwxrwx  1 alice    staff          11 Jan  1 00:00 ln -> /tmp/target\n" ∧
    (main (sampleEnv 1800000000 (some (sampleLink 11 1800000000)) (some "alice")
        (some "staff") none) ["prog", "ln"]).out
        = "lrwxrwxrwx  1 alice    staff          11 Jan  1 00:00 ln\n" ∧
    (main (sampleEnv 1800000000 (some (sampleFile 11 1800000000)) (some "alice")
        (some "staff") (some "/tmp/target")) ["prog", "f"]).out
        = "-rw-r--r--  1 alice    staff          11 Jan  1 00:00 f\n" := by
  refine ⟨by decide, by decide, by decide⟩

theorem spaces_length (n : Nat) : (spaces n).length = n := by
  simp [spaces, String.length]

theorem rightAlign_length (w : Nat) (s : String) :
    (rightAlign w s).length = max w s.length := by
  simp only [rightAlign, String.length_append, spaces_length]
  omega

theorem leftAlign_length (w : Nat) (s : String) :
    (leftAlign w s).length = max w s.length := by
  simp only [leftAlign, String.length_append, spaces_length]
  omega

theorem align_of_wide (w : Nat) (s : String) (h : w ≤ s.length) :
    rightAlign w s = s ∧ leftAlign w s = s := by
  have h0 : w - s.length = 0 := by omega
  simp [rightAlign, leftAlign, h0, spaces_zero]

/-- C9. On success the line on standard output is exactly the type character,
the 9 permission characters, a space, the link count right-aligned to width 2,
a space, the owner left-aligned to width 8, a space, the group left-aligned to
width 8, a space, the size right-aligned to width 8, a space, the timestamp
(the text `strftime` gives for the broken-down modification time), a space,
the path as supplied, the optional symlink suffix and a newline. An aligned
field is the value with fill characters on one side, as long as the longer of
the width and the value, and the value itself when that is at least as wide
as the field. For a regular file of mode 0644 owned by `alice` and `staff` the
line begins `-rw-r--r-- ` and holds `alice   ` and the size padded on the left
to 8 characters. -/
theorem main_output_line (env : Env) (argv : List String)
    (hc : (main env argv).code = some 0) :
    (∃ path st tm, argv[1]? = some path ∧ env.lstat path = .ok st ∧
      env.localtime st.st_mtime = some tm ∧
      (main env argv).out
        = outputLine (filetype_char st.st_mode) (perms_string st.st_mode) st.st_nlink
            (nameOrUnknown (env.getpwuid st.st_uid)) (nameOrUnknown (env.getgrgid st.st_gid))
            st.st_size (env.strftime (selectedFormat env.time st.st_mtime) tm) path
            (symlinkSuffix (S_ISLNK st.st_mode) (env.readlink path PATH_MAX)) ∧
      (st.st_mode = 0o100644 → env.getpwuid st.st_uid = some "alice" →
        env.getgrgid st.st_gid = some "staff" →
        ∃ tail, (main env argv).out
          = "-rw-r--r-- " ++ rightAlign 2 (toString st.st_nlink) ++ " " ++ "alice   " ++ " "
              ++ "staff   " ++ " " ++ rightAlign 8 (toString st.st_size) ++ " " ++ tail)) ∧
    (∀ (w : Nat) (s : String),
      (rightAlign w s = spaces (w - s.length) ++ s) ∧
      (leftAlign w s = s ++ spaces (w - s.length)) ∧
      (rightAlign w s).length = max w s.length ∧ (leftAlign w s).length = max w s.length ∧
      (w ≤ s.length → rightAlign w s = s ∧ leftAlign w s = s)) := by
  refine ⟨?_, fun w s => ⟨rfl, rfl, rightAlign_length w s, leftAlign_length w s,
    align_of_wide w s⟩⟩
  match argv, hc with
  | [], hc => simp [(main_usage env [] (by simp)).1] at hc
  | [a], hc => simp [(main_usage env [a] (by simp)).1] at hc
  | a :: p :: r, hc =>
    cases hl : env.lstat p with
    | error reason => simp [main_lstat_error env a p r reason hl] at hc
    | ok st =>
      cases ht : env.localtime st.st_mtime with
      | none => simp [main_null_tm env a p r st hl ht] at hc
      | some tm =>
        refine ⟨p, st, tm, by simp, hl, ht, ?_, ?_⟩
        · rw [main_success env a p r st tm hl ht]
          rfl
        · intro hm ho hg
          rw [main_success env a p r st tm hl ht]
          refine ⟨env.strftime (selectedFormat env.time st.st_mtime) tm ++ " " ++ p
            ++ symlinkSuffix (S_ISLNK st.st_mode) (env.readlink p PATH_MAX) ++ "\n", ?_⟩
          have hf : filetype_char 0o100644 = '-' := by decide
          have hp : perms_string 0o100644 = "rw-r--r--" := by decide
          have ha : leftAlign 8 "alice" = "alice   " := by decide
          have hs : leftAlign 8 "staff" = "staff   " := by decide
          have h1 : String.singleton '-' ++ "rw-r--r--" ++ " " = "-rw-r--r-- " := by decide
          simp only [successLine, lineFor, outputLine, hm, ho, hg, nameOrUnknown, hf, hp, ha,
            hs, h1, String.append_assoc]

/-- Witness of C9: a regular file of mode 0644, owner `alice`, group `staff`,
size 1234; and a size wider than its field. -/
theorem main_output_line_witness :
    (∃ path st, ["prog", "f"][1]? = some path ∧
      (sampleEnv 1800000000 (some (sampleFile 1234 1800000000)) (some "alice")
        (some "staff") none).lstat path = .ok st ∧
      (main (sampleEnv 1800000000 (some (sampleFile 1234 1800000000)) (some "alice")
        (some "staff") none) ["prog", "f"]).out
        = "-rw-r--r--  1 alice    staff        1234 Jan  1 00:00 f\n") ∧
    (main (sampleEnv 1800000000 (some (sampleFile 123456789012 1800000000)) (some "alice")
        (some "staff") none) ["prog", "f"]).out
        = "-rw-r--r--  1 alice    staff    123456789012 Jan  1 00:00 f\n" := by
  constructor
  · obtain ⟨path, st, tm, hp, hl, -, hout, -⟩ :=
      (main_output_line (sampleEnv 1800000000 (some (sampleFile 1234 1800000000))
        (some "alice") (some "staff") none) ["prog", "f"] (by decide)).1
    exact ⟨path, st, hp, hl, by decide⟩
  · decide

end PathInspector
